import Mathlib

/-!
Verification of the store persistence framework core against its
natural-language specification.

The Go sources are shallowly embedded: each Go function that a claim
depends on is translated into an executable Lean definition operating on
explicit data (maps become association lists in iteration order, pointers
to counters become threaded state, interface values become a closed value
type, external collaborators such as SHA-256/HMAC and the SQL driver are
parameters or action logs). Theorems at the end of the file settle the
claims.
-/

namespace GoStore

/-! ## Backend-agnostic IR (package store, query.go / mutation.go)

A Go `any` value, as used by the IR: the compilers only ever treat it as a
scalar, a `[]any` list (for In) or a `[2]any` pair (for Between), which the
source documents on `Condition.Value`. -/

/-- Scalar Go value: nil interface, string, or integer. -/
inductive Scalar where
  | vnil : Scalar
  | vstr (s : String) : Scalar
  | vint (n : Int) : Scalar
deriving DecidableEq, Repr

/-- A `Condition.Value` / query argument: a scalar, a list (Go `[]any` for In),
or a pair (Go `[2]any` for Between). -/
inductive Val where
  | scalar (s : Scalar) : Val
  | vlist (vs : List Scalar) : Val
  | vpair (a b : Scalar) : Val
deriving DecidableEq, Repr

/-- Go type assertion `cond.Value.([]any)` with ignored ok-flag: a failed
assertion yields the nil slice. -/
def asList : Val → List Scalar
  | .vlist vs => vs
  | _ => []

/-- Go type assertion `cond.Value.([2]any)` with ignored ok-flag: a failed
assertion yields the zero value (two nil interfaces). -/
def asPair : Val → Scalar × Scalar
  | .vpair a b => (a, b)
  | _ => (.vnil, .vnil)

/-- Rendering of a value by Go `fmt` verbs (`%s`/`%v`) as used for LIKE
patterns; strings render verbatim, ints in decimal, nil as in Go. -/
def goFormat : Val → String
  | .scalar (.vstr s) => s
  | .scalar (.vint n) => toString n
  | .scalar .vnil => "<nil>"
  | .vlist _ => "[...]"
  | .vpair _ _ => "[...]"

/-- Filter/mutation operators. Union of the two `Operator` constant blocks in
the sources; `opPfx`/`opSfx` stand for the starts-with / ends-with operators. -/
inductive Op where
  | opEq | opNe | opGt | opGe | opLt | opLe
  | opIn | opNotIn | opBetween
  | opPfx | opSfx | opContains | opLike | opILike | opRegex
  | opIsNull | opNotNull
deriving DecidableEq, Repr

/-- store.Condition: a leaf filter (field op value). -/
structure Cond where
  field : String
  op : Op
  value : Val
deriving DecidableEq, Repr

/-- store.Node: recursive filter tree (Condition, And, Or). -/
inductive Node where
  | cond (c : Cond) : Node
  | and (children : List Node) : Node
  | or (children : List Node) : Node

/-- store.Order: ordering on a field. -/
structure Order where
  field : String
  desc : Bool
deriving DecidableEq, Repr

/-- store.Query: backend-agnostic query intent (hints map omitted: the SQL
compiler never reads it). -/
structure Query where
  selectFields : List String
  filter : Option Node
  orderBy : List Order
  limit : Option Int
  offset : Option Int
  pageSize : Option Int
  cursor : String

/-! ## SQL query builder (package sqlstore, repository.go) -/

/-- sqlstore.Condition: one builder WHERE entry. A `Condition` whose operator
is empty is emitted verbatim (used by WhereNull and by SQLCompiler.Compile). -/
structure BCond where
  column : String
  operator : String
  value : Val
  connector : String
deriving DecidableEq, Repr

/-- sqlstore.OrderBy clause entry. -/
structure OrderBy where
  column : String
  direction : String
deriving DecidableEq, Repr

/-- sqlstore.QueryBuilder state. `whereConds` is the `where` field of the Go
struct. -/
structure QueryBuilder where
  table : String
  columns : List String
  whereConds : List BCond
  orderBys : List OrderBy
  limit : Option Int
  offset : Option Int
  args : List Val
  argIndex : Nat
deriving DecidableEq, Repr

/-- sqlstore.NewQueryBuilder. -/
def NewQueryBuilder (table : String) : QueryBuilder :=
  { table := table, columns := ["*"], whereConds := [], orderBys := []
    limit := none, offset := none, args := [], argIndex := 1 }

/-- QueryBuilder.Select: replaces the column list when non-empty. -/
def QueryBuilder.Select (qb : QueryBuilder) (columns : List String) : QueryBuilder :=
  if columns.isEmpty then qb else { qb with columns := columns }

/-- QueryBuilder.Where: appends an AND-connected condition, silently skipping
nil values and empty-string values. -/
def QueryBuilder.Where (qb : QueryBuilder) (column operator : String) (value : Val) :
    QueryBuilder :=
  if value = Val.scalar Scalar.vnil then qb
  else if value = Val.scalar (Scalar.vstr "") then qb
  else { qb with whereConds := qb.whereConds ++
          [{ column := column, operator := operator, value := value, connector := "AND" }] }

/-- QueryBuilder.WhereEq. -/
def QueryBuilder.WhereEq (qb : QueryBuilder) (column : String) (value : Val) : QueryBuilder :=
  qb.Where column "=" value

/-- QueryBuilder.OrderBy (the method): uppercases the direction. -/
def QueryBuilder.OrderByCol (qb : QueryBuilder) (column direction : String) : QueryBuilder :=
  { qb with orderBys := qb.orderBys ++ [{ column := column, direction := direction.toUpper }] }

/-- QueryBuilder.OrderByAsc. -/
def QueryBuilder.OrderByAsc (qb : QueryBuilder) (column : String) : QueryBuilder :=
  qb.OrderByCol column "ASC"

/-- QueryBuilder.OrderByDesc. -/
def QueryBuilder.OrderByDesc (qb : QueryBuilder) (column : String) : QueryBuilder :=
  qb.OrderByCol column "DESC"

/-- QueryBuilder.Limit. -/
def QueryBuilder.Limit (qb : QueryBuilder) (n : Int) : QueryBuilder :=
  { qb with limit := some n }

/-- QueryBuilder.Offset. -/
def QueryBuilder.Offset (qb : QueryBuilder) (n : Int) : QueryBuilder :=
  { qb with offset := some n }

/-- Body of QueryBuilder.buildWhereClause: walks the conditions, numbering
parameterised ones from `argIndex` and appending their values to `args`;
conditions with an empty operator are emitted verbatim and consume no
placeholder. Returns the parts list plus the updated args and counter.
The Bool records whether this is the first entry (Go `i > 0` test). -/
def buildWhereAux : List BCond → Nat → List Val → Bool → List String × List Val × Nat
  | [], i, acc, _ => ([], acc, i)
  | c :: rest, i, acc, isFirst =>
    let (s, acc', i') :=
      if c.operator = "" then (c.column, acc, i)
      else (c.column ++ " " ++ c.operator ++ " $" ++ toString i, acc ++ [c.value], i + 1)
    let pre : List String := if isFirst then [] else [c.connector]
    let (ps, acc'', i'') := buildWhereAux rest i' acc' false
    (pre ++ s :: ps, acc'', i'')

/-- QueryBuilder.Build: SELECT query assembly. LIMIT and OFFSET placeholders
are numbered from the builder's own `argIndex` and their values appended to
the builder's own `args`, exactly as in the source. -/
def QueryBuilder.Build (qb : QueryBuilder) : String × List Val :=
  let query := "SELECT " ++ String.intercalate ", " qb.columns ++ " FROM " ++ qb.table
  let (query, args, i) :=
    if qb.whereConds.isEmpty then (query, qb.args, qb.argIndex)
    else
      let (parts, args, i) := buildWhereAux qb.whereConds qb.argIndex qb.args true
      (query ++ " WHERE " ++ String.intercalate " " parts, args, i)
  let query :=
    if qb.orderBys.isEmpty then query
    else query ++ " ORDER BY " ++
      String.intercalate ", " (qb.orderBys.map (fun ob => ob.column ++ " " ++ ob.direction))
  let (query, args, i) :=
    match qb.limit with
    | some l => (query ++ " LIMIT $" ++ toString i, args ++ [Val.scalar (.vint l)], i + 1)
    | none => (query, args, i)
  let (query, args) :=
    match qb.offset with
    | some o => (query ++ " OFFSET $" ++ toString i, args ++ [Val.scalar (.vint o)])
    | none => (query, args)
  (query, args)

/-! ## SQL query compiler (package sqlstore, query_compiler.go) -/

/-- SQLCompiler.compileCondition: compiles one leaf condition, threading the
shared placeholder counter (`*argIndex` in the source). Returns the SQL
fragment, its args, and the updated counter. -/
def compileCondition (c : Cond) (argIndex : Nat) : String × List Val × Nat :=
  let f := c.field
  match c.op with
  | .opEq => (f ++ " = $" ++ toString argIndex, [c.value], argIndex + 1)
  | .opNe => (f ++ " <> $" ++ toString argIndex, [c.value], argIndex + 1)
  | .opGt => (f ++ " > $" ++ toString argIndex, [c.value], argIndex + 1)
  | .opGe => (f ++ " >= $" ++ toString argIndex, [c.value], argIndex + 1)
  | .opLt => (f ++ " < $" ++ toString argIndex, [c.value], argIndex + 1)
  | .opLe => (f ++ " <= $" ++ toString argIndex, [c.value], argIndex + 1)
  | .opIn =>
    let vals := asList c.value
    if vals.isEmpty then ("1=0", [], argIndex)
    else
      let ph := (List.range vals.length).map (fun k => "$" ++ toString (argIndex + k))
      (f ++ " IN (" ++ String.intercalate ", " ph ++ ")",
        vals.map Val.scalar, argIndex + vals.length)
  | .opBetween =>
    let (a, b) := asPair c.value
    (f ++ " BETWEEN $" ++ toString argIndex ++ " AND $" ++ toString (argIndex + 1),
      [Val.scalar a, Val.scalar b], argIndex + 2)
  | .opPfx =>
    (f ++ " LIKE $" ++ toString argIndex,
      [Val.scalar (.vstr (goFormat c.value ++ "%"))], argIndex + 1)
  | .opContains =>
    (f ++ " LIKE $" ++ toString argIndex,
      [Val.scalar (.vstr ("%" ++ goFormat c.value ++ "%"))], argIndex + 1)
  | .opIsNull => (f ++ " IS NULL", [], argIndex)
  | .opNotNull => (f ++ " IS NOT NULL", [], argIndex)
  | _ => ("", [], argIndex)

mutual

/-- SQLCompiler.compileNode: compiles a filter tree node. And/Or groups skip
children that compiled to the empty fragment; an entirely empty group yields
no predicate. -/
def compileNode : Node → Nat → String × List Val × Nat
  | .cond c, i => compileCondition c i
  | .and cs, i =>
    let (parts, args, i') := compileParts cs i
    if parts.isEmpty then ("", [], i')
    else ("(" ++ String.intercalate " AND " parts ++ ")", args, i')
  | .or cs, i =>
    let (parts, args, i') := compileParts cs i
    if parts.isEmpty then ("", [], i')
    else ("(" ++ String.intercalate " OR " parts ++ ")", args, i')

/-- Child-compilation loop shared by the And/Or branches of compileNode. -/
def compileParts : List Node → Nat → List String × List Val × Nat
  | [], i => ([], [], i)
  | n :: rest, i =>
    let (s, a, i') := compileNode n i
    let (ps, rargs, i'') := compileParts rest i'
    if s = "" then (ps, rargs, i'')
    else (s :: ps, a ++ rargs, i'')

end

/-- sqlstore.CompiledSQL. -/
structure CompiledSQL where
  sql : String
  args : List Val
deriving DecidableEq, Repr

/-- SQLCompiler.Compile: builds the WHERE fragment with its own counter
starting at 1, stuffs it verbatim (empty operator) into the builder, applies
order/limit/offset, then keeps the builder's SQL but replaces the builder's
collected args with the flattened filter args, as in the source. -/
def SQLCompiler.Compile (table : String) (q : Query) : CompiledSQL :=
  let qb := NewQueryBuilder table
  let qb := if q.selectFields.isEmpty then qb else qb.Select q.selectFields
  let filtered : QueryBuilder × List Val :=
    match q.filter with
    | some f =>
      let (wsql, wargs, _) := compileNode f 1
      if wsql = "" then (qb, ([] : List Val))
      else ({ qb with whereConds := qb.whereConds ++
               [{ column := wsql, operator := "", value := Val.scalar .vnil, connector := "" }] },
            wargs)
    | none => (qb, [])
  let qb := filtered.1
  let args := filtered.2
  let qb := q.orderBy.foldl
    (fun (qb : QueryBuilder) (o : Order) =>
      if o.desc then qb.OrderByDesc o.field else qb.OrderByAsc o.field) qb
  let qb := match q.limit with | some l => qb.Limit l | none => qb
  let qb := match q.offset with | some o => qb.Offset o | none => qb
  let (sql, _) := qb.Build
  { sql := sql, args := args }

/-! ## Placeholder scanner (for stating the placeholder-monotonicity law) -/

/-- One step of the placeholder scanner: `st = some n` means we are inside a
`$`-placeholder whose digits read so far denote `n`. Emits a completed
placeholder number when a non-digit ends it. -/
def phStep (st : Option Nat) (c : Char) : List Nat × Option Nat :=
  match st with
  | none => if c = '$' then ([], some 0) else ([], none)
  | some n =>
    if c.isDigit then ([], some (n * 10 + (c.toNat - 48)))
    else
      let emit := if n > 0 then [n] else []
      if c = '$' then (emit, some 0) else (emit, none)

/-- Placeholder scan over a character list. -/
def phScanAux : List Char → Option Nat → List Nat
  | [], st => match st with | some n => if n > 0 then [n] else [] | none => []
  | c :: cs, st =>
    let (emit, st') := phStep st c
    emit ++ phScanAux cs st'

/-- All `$N` placeholder numbers occurring in a SQL string, left to right. -/
def phScan (s : String) : List Nat := phScanAux s.toList none

/-- The placeholder-monotonicity law of the spec: the placeholders are exactly
`$1..$N` in strict left-to-right order where `N` is the number of args. -/
def placeholdersOk (c : CompiledSQL) : Prop :=
  phScan c.sql = List.range' 1 c.args.length

instance (c : CompiledSQL) : Decidable (placeholdersOk c) := by
  unfold placeholdersOk; infer_instance

/-! ## SQL mutation compiler (package sqlstore, compiler.go)

Go iterates `Insert.Values` and `Update.Set` with `for col, val := range m`,
whose order over a map is unspecified and varies between runs. The embedding
therefore takes the map as an association list in the iteration order the
runtime happened to choose: two lists that are permutations of one another
denote the same map. -/

/-- store.CompiledMutation (hints omitted: this compiler never sets them). -/
structure CompiledMutation where
  sql : String
  args : List Val
deriving DecidableEq, Repr

instance {ε α : Type} [DecidableEq ε] [DecidableEq α] : DecidableEq (Except ε α) :=
  fun a b =>
    match a, b with
    | .ok x, .ok y => if h : x = y then .isTrue (by rw [h]) else .isFalse (by simp [h])
    | .error x, .error y => if h : x = y then .isTrue (by rw [h]) else .isFalse (by simp [h])
    | .ok _, .error _ => .isFalse (by simp)
    | .error _, .ok _ => .isFalse (by simp)

/-- One arm of the switch inside compileConditions: the fragment(s), args and
updated counter contributed by a single condition. Eq..Le and the default arm
emit one placeholder; IsNull/NotNull none; In emits one per element but only
when the value is a non-empty list, otherwise the condition is dropped. There
is no Between arm, so Between falls into the default equality arm. -/
def mutCondStep (c : Cond) (i : Nat) : List String × List Val × Nat :=
  match c.op with
  | .opEq => ([c.field ++ " = $" ++ toString i], [c.value], i + 1)
  | .opNe => ([c.field ++ " != $" ++ toString i], [c.value], i + 1)
  | .opGt => ([c.field ++ " > $" ++ toString i], [c.value], i + 1)
  | .opGe => ([c.field ++ " >= $" ++ toString i], [c.value], i + 1)
  | .opLt => ([c.field ++ " < $" ++ toString i], [c.value], i + 1)
  | .opLe => ([c.field ++ " <= $" ++ toString i], [c.value], i + 1)
  | .opIsNull => ([c.field ++ " IS NULL"], [], i)
  | .opNotNull => ([c.field ++ " IS NOT NULL"], [], i)
  | .opIn =>
    match c.value with
    | .vlist vs =>
      if vs.length > 0 then
        let ph := (List.range vs.length).map (fun k => "$" ++ toString (i + k))
        ([c.field ++ " IN (" ++ String.intercalate ", " ph ++ ")"],
          vs.map Val.scalar, i + vs.length)
      else ([], [], i)
    | _ => ([], [], i)
  | _ => ([c.field ++ " = $" ++ toString i], [c.value], i + 1)

/-- Loop of compileConditions over the condition list. -/
def compileCondsAux : List Cond → Nat → List String × List Val
  | [], _ => ([], [])
  | c :: rest, i =>
    let (ps, args1, i') := mutCondStep c i
    let (qs, args2) := compileCondsAux rest i'
    (ps ++ qs, args1 ++ args2)

/-- sqlstore.compileConditions: compiles a condition list to an AND-joined
WHERE clause starting at the given placeholder index. -/
def compileConditions (conditions : List Cond) (startIndex : Nat) : String × List Val :=
  if conditions.isEmpty then ("", [])
  else
    let (parts, args) := compileCondsAux conditions startIndex
    (String.intercalate " AND " parts, args)

/-- sqlstore.compileInsert: columns, placeholders and args in the map
iteration order received. -/
def compileInsert (tableName : String) (values : List (String × Val)) :
    Except String CompiledMutation :=
  if values.isEmpty then .error "insert values cannot be empty"
  else
    let columns := values.map (fun cv => cv.1)
    let placeholders := (List.range values.length).map (fun k => "$" ++ toString (k + 1))
    let args := values.map (fun cv => cv.2)
    .ok { sql := "INSERT INTO " ++ tableName ++ " (" ++ String.intercalate ", " columns ++
            ") VALUES (" ++ String.intercalate ", " placeholders ++ ")"
        , args := args }

/-- sqlstore.compileUpdate: SET clause in map iteration order, then the WHERE
clause compiled with the continued placeholder index. -/
def compileUpdate (tableName : String) (set : List (String × Val)) (whereConds : List Cond) :
    Except String CompiledMutation :=
  if set.isEmpty then .error "update set values cannot be empty"
  else
    let setParts := (set.zip (List.range set.length)).map
      (fun p => p.1.1 ++ " = $" ++ toString (p.2 + 1))
    let args := set.map (fun cv => cv.2)
    let i := set.length + 1
    let sql := "UPDATE " ++ tableName ++ " SET " ++ String.intercalate ", " setParts
    if whereConds.isEmpty then .ok { sql := sql, args := args }
    else
      let (wsql, wargs) := compileConditions whereConds i
      .ok { sql := sql ++ " WHERE " ++ wsql, args := args ++ wargs }

/-! ## Cursor paginator (pagination.go and SQLPaginator.ApplyToQueryBuilder) -/

/-- store.Cursor. Timestamps are unix instants modelled as integers. -/
structure Cursor where
  lastID : String
  lastTimestamp : Int
  lastSort : String
  pageSize : Int
  createdAt : Int
  version : Nat
deriving DecidableEq, Repr

/-- store.CursorParams. -/
structure CursorParams where
  pageSize : Int
  cursor : String
deriving DecidableEq, Repr

/-- SQLPaginator.ApplyToQueryBuilder: sets LIMIT to the page size and, for a
non-empty cursor that decodes successfully, appends the single condition
`created_at < cursor.LastTimestamp`. `decode` stands for Paginator.DecodeCursor
(base64url and JSON codecs plus age/version checks, external to this
fragment): it returns some cursor exactly when the source's
`err == nil && cursor != nil` holds. No ORDER BY is touched. -/
def applyToQueryBuilder (decode : String → Option Cursor) (qb : QueryBuilder)
    (params : CursorParams) : QueryBuilder :=
  let qb := qb.Limit params.pageSize
  if params.cursor ≠ "" then
    match decode params.cursor with
    | some cursor => qb.Where "created_at" "<" (Val.scalar (.vint cursor.lastTimestamp))
    | none => qb
  else qb

/-- Concrete decode function for the C3 analysis: decodes the token CUR to a
cursor positioned at id i2, timestamp 5. -/
def c3Decode : String → Option Cursor :=
  fun s => if s = "CUR" then some { lastID := "i2", lastTimestamp := 5, lastSort := ""
                                  , pageSize := 2, createdAt := 0, version := 1 }
           else none

/-! ## Update and delete builders (package sqlstore, repository.go) -/

/-- Association-list write modelling Go map assignment `m[k] = v` on the
UpdateBuilder's updates map (iteration-order representation). -/
def assocSet : List (String × Val) → String → Val → List (String × Val)
  | [], k, v => [(k, v)]
  | (k', v') :: rest, k, v =>
    if k' = k then (k, v) :: rest else (k', v') :: assocSet rest k v

/-- sqlstore.UpdateBuilder state. -/
structure UpdateBuilder where
  table : String
  updates : List (String × Val)
  whereConds : List BCond
  args : List Val
  argIndex : Nat
deriving DecidableEq, Repr

/-- sqlstore.NewUpdateBuilder. -/
def NewUpdateBuilder (table : String) : UpdateBuilder :=
  { table := table, updates := [], whereConds := [], args := [], argIndex := 1 }

/-- UpdateBuilder.Set. -/
def UpdateBuilder.Set (ub : UpdateBuilder) (column : String) (value : Val) : UpdateBuilder :=
  { ub with updates := assocSet ub.updates column value }

/-- UpdateBuilder.Where: same nil / empty-string skip as the query builder. -/
def UpdateBuilder.Where (ub : UpdateBuilder) (column operator : String) (value : Val) :
    UpdateBuilder :=
  if value = Val.scalar Scalar.vnil then ub
  else if value = Val.scalar (Scalar.vstr "") then ub
  else { ub with whereConds := ub.whereConds ++
          [{ column := column, operator := operator, value := value, connector := "AND" }] }

/-- UpdateBuilder.WhereEq. -/
def UpdateBuilder.WhereEq (ub : UpdateBuilder) (column : String) (value : Val) : UpdateBuilder :=
  ub.Where column "=" value

/-- sqlstore.DeleteBuilder state. -/
structure DeleteBuilder where
  table : String
  whereConds : List BCond
  args : List Val
  argIndex : Nat
deriving DecidableEq, Repr

/-- sqlstore.NewDeleteBuilder. -/
def NewDeleteBuilder (table : String) : DeleteBuilder :=
  { table := table, whereConds := [], args := [], argIndex := 1 }

/-- DeleteBuilder.Where: same nil / empty-string skip as the query builder. -/
def DeleteBuilder.Where (db : DeleteBuilder) (column operator : String) (value : Val) :
    DeleteBuilder :=
  if value = Val.scalar Scalar.vnil then db
  else if value = Val.scalar (Scalar.vstr "") then db
  else { db with whereConds := db.whereConds ++
          [{ column := column, operator := operator, value := value, connector := "AND" }] }

/-- DeleteBuilder.WhereEq. -/
def DeleteBuilder.WhereEq (db : DeleteBuilder) (column : String) (value : Val) : DeleteBuilder :=
  db.Where column "=" value

/-! ## Transaction orchestrator (transaction.go and the extended handler)

The driver transaction handle is external; its observable behaviour is the
ordered list of driver calls issued (BEGIN / COMMIT / ROLLBACK) and the
outcomes of the fallible ones, which enter the model as parameters. -/

/-- Go error values as seen by the transaction code: an opaque error, or a
store.TransactionError wrapping a cause with an operation label. -/
inductive GoError where
  | errMsg (msg : String)
  | txError (op : String) (cause : GoError)
deriving DecidableEq, Repr

/-- TransactionError.Unwrap: yields the wrapped cause. -/
def errUnwrap : GoError → Option GoError
  | .txError _ cause => some cause
  | _ => none

/-- store.WrapTransactionError: nil stays nil, otherwise the error is wrapped
in a TransactionError carrying the operation label. -/
def wrapTransactionError : Option GoError → String → Option GoError
  | none, _ => none
  | some e, op => some (.txError op e)

/-- Driver calls issued on the transaction handle. -/
inductive TxAction where
  | beginTx | commitTx | rollbackTx
deriving DecidableEq, Repr

/-- TransactionHandler.WithTx (and the identical lifecycle of the extended
handler's executeTx, reached from WithTx / WithTxOptions when no retry policy
is set): join an existing context transaction, otherwise BEGIN, run the
callback, then ROLLBACK and wrap its error, or COMMIT. Parameters mirror the
environment: whether the context already carries a transaction, whether BeginTx
fails, the callback's returned error, and whether Commit fails. Returns the
surfaced error and the driver calls issued. -/
def withTx (existingTx : Bool) (beginErr : Option GoError) (fnResult : Option GoError)
    (commitErr : Option GoError) : Option GoError × List TxAction :=
  if existingTx then (fnResult, [])
  else
    match beginErr with
    | some e => (wrapTransactionError (some e) "begin", [])
    | none =>
      match fnResult with
      | some e => (wrapTransactionError (some e) "rollback", [.beginTx, .rollbackTx])
      | none =>
        match commitErr with
        | some e => (wrapTransactionError (some e) "commit", [.beginTx, .commitTx])
        | none => (none, [.beginTx, .commitTx])

/-! ## Content-addressed file IDs (package filestore, filestore.go)

SHA-256 is an external primitive: the definitions take the hex digest
function `sha256hex : List Nat → String` as a parameter and are proved for
every such function (or for a concrete injective stand-in where a concrete
evaluation is needed). Bytes are naturals; strings convert to their byte
lists (all inputs here are ASCII). -/

/-- Lowercase hex digit. -/
def hexDigitChar (n : Nat) : Char :=
  if n < 10 then Char.ofNat (48 + n) else Char.ofNat (87 + n)

/-- Go hex.EncodeToString: two lowercase hex digits per byte. -/
def hexEncode (bs : List Nat) : String :=
  String.mk (bs.foldr (fun b acc => hexDigitChar (b / 16 % 16) :: hexDigitChar (b % 16) :: acc) [])

/-- Bytes of an ASCII string. -/
def strBytes (s : String) : List Nat := s.toList.map Char.toNat

/-- Go slicing `s[:n]` on an ASCII string (hex digests here). -/
def takeGo (s : String) (n : Nat) : String := String.mk (s.toList.take n)

/-- filestore.GenerateFileID: hashes the string
`hex(content) ++ ":" ++ originalName` — note the hex of the raw content
bytes, with no inner content hash — and keeps the first 16 hex characters. -/
def generateFileID (sha256hex : List Nat → String) (content : List Nat)
    (originalName : String) : String :=
  let data := hexEncode content ++ ":" ++ originalName
  takeGo (sha256hex (strBytes data)) 16

/-- filestore.GenerateFileIDFromStream: hashes the streamed content to
`contentHash`, then hashes `contentHash ++ ":" ++ originalName` and keeps the
first 16 hex characters. The filesystem adapters use this function. -/
def generateFileIDFromStream (sha256hex : List Nat → String) (content : List Nat)
    (originalName : String) : String :=
  let contentHash := sha256hex content
  let data := contentHash ++ ":" ++ originalName
  takeGo (sha256hex (strBytes data)) 16

/-- Modelled from the spec: the FileID formula the specification states — the
16-character hex prefix of sha256 over the content hash, a colon, and the
original name. Comparison target for the two implementations. -/
def specFileID (sha256hex : List Nat → String) (content : List Nat)
    (originalName : String) : String :=
  takeGo (sha256hex (strBytes (sha256hex content ++ ":" ++ originalName))) 16

/-- Concrete injective digest stand-in for the C5 evaluation: renders the byte
list. Distinct inputs give digests differing within the first 16 characters
for the inputs involved. -/
def c5Hash : List Nat → String := fun bs => toString bs

/-! ## Presigned URLs and token validation (filesystem file store)

HMAC-SHA256 is external: `hmacHex secret data` stands for the hex digest and
is a parameter of the definitions. -/

/-- Digits to the natural number they denote. -/
def digitsToNat (ds : List Char) : Nat :=
  ds.foldl (fun n c => n * 10 + (c.toNat - 48)) 0

/-- Go strconv.ParseInt(s, 10, 64): optional sign then at least one digit
(64-bit range not modelled; all instants here are small). -/
def parseIntGo (s : String) : Option Int :=
  match s.toList with
  | [] => none
  | '+' :: ds =>
    if ds.isEmpty then none
    else if ds.all Char.isDigit then some (digitsToNat ds) else none
  | '-' :: ds =>
    if ds.isEmpty then none
    else if ds.all Char.isDigit then some (-(digitsToNat ds : Int)) else none
  | ds =>
    if ds.all Char.isDigit then some (digitsToNat ds) else none

/-- Store.generateSignature: HMAC hex over `path ++ ":" ++ timestamp`. -/
def generateSignature (hmacHex : String → String → String) (secretKey path timestamp : String) :
    String :=
  hmacHex secretKey (path ++ ":" ++ timestamp)

/-- Store.generateToken: expiry instant is now plus the expires duration; the
token is `ts.sig` with the signature computed over the bare file id. -/
def generateToken (hmacHex : String → String → String) (secretKey fileID : String)
    (now expires : Int) : String :=
  let ts := toString (now + expires)
  ts ++ "." ++ generateSignature hmacHex secretKey fileID ts

/-- Go strings.Split at a single-character separator. -/
def splitOnCharGo (sep : Char) : List Char → List (List Char)
  | [] => [[]]
  | c :: rest =>
    let r := splitOnCharGo sep rest
    if c = sep then [] :: r
    else
      match r with
      | h :: t => (c :: h) :: t
      | [] => [[c]]

/-- Go strings.Split(token, dot). -/
def splitOnDotGo (s : String) : List String :=
  (splitOnCharGo '.' s.toList).map String.mk

/-- Store.validateToken: split the token at the dot, parse the expiry, reject
when now is past it, then compare the signature computed over the request
path (hmac.Equal is a constant-time equality; equality here). -/
def validateToken (hmacHex : String → String → String) (secretKey : String) (now : Int)
    (path token : String) : Bool :=
  match splitOnDotGo token with
  | [ts, sig] =>
    match parseIntGo ts with
    | none => false
    | some tsInt =>
      if now > tsInt then false
      else sig == generateSignature hmacHex secretKey path ts
  | _ => false

/-- Go strings.TrimSuffix (character-list semantics). -/
def trimSuffixGo (s suffix : String) : String :=
  if suffix.toList.isSuffixOf s.toList then
    String.mk (s.toList.take (s.toList.length - suffix.toList.length))
  else s

/-- Store.GetPresignedURL: requires a configured base URL and an existing
file, then emits `base/files/id?token=ts.sig`. -/
def getPresignedURL (hmacHex : String → String → String) (baseURL secretKey : String)
    (fileExists : Bool) (now : Int) (id : String) (expires : Int) : Except String String :=
  if baseURL = "" then .error "base URL not configured for presigned URLs"
  else if !fileExists then .error "file does not exist"
  else .ok (trimSuffixGo baseURL "/" ++ "/files/" ++ id ++ "?token=" ++
        generateToken hmacHex secretKey id now expires)

/-- Store.ServeHTTP token check: the request for a presigned URL has URL path
`/files/id`, and validateToken receives that full path. -/
def serveValidates (hmacHex : String → String → String) (secretKey : String) (now : Int)
    (id token : String) : Bool :=
  validateToken hmacHex secretKey now ("/files/" ++ id) token

/-- Concrete injective HMAC stand-in for the C4 evaluation: distinct data give
distinct digests, and digests contain no dot. -/
def c4Hmac : String → String → String := fun secret data => secret ++ "|" ++ data

/-! ## In-memory KV adapter (MemoryConnection) -/

/-- adapter.MemoryValue: stored bytes with optional expiry instant. -/
structure MemoryValue where
  data : List Nat
  expiresAt : Option Int
deriving DecidableEq, Repr

/-- adapter.MemoryStats counters. -/
structure MemoryStats where
  keys : Int
  gets : Int
  sets : Int
  deletes : Int
  hits : Int
  misses : Int
  expired : Int
deriving DecidableEq, Repr

/-- adapter.MemoryStore: key-to-value mapping plus statistics. -/
structure MemoryStore where
  data : List (String × MemoryValue)
  stats : MemoryStats
deriving DecidableEq, Repr

/-- MemoryConnection.IncrBy: unconditionally returns the passed delta together
with an error, touching neither the data nor the statistics. -/
def MemoryConnection.IncrBy (st : MemoryStore) (_key : String) (value : Int) :
    Int × Option String × MemoryStore :=
  (value, some "atomic operations not fully implemented in memory adapter", st)

/-- MemoryConnection.Incr delegates to IncrBy with delta 1. -/
def MemoryConnection.Incr (st : MemoryStore) (key : String) : Int × Option String × MemoryStore :=
  MemoryConnection.IncrBy st key 1

/-- MemoryConnection.DecrBy delegates to IncrBy with the negated delta. -/
def MemoryConnection.DecrBy (st : MemoryStore) (key : String) (value : Int) :
    Int × Option String × MemoryStore :=
  MemoryConnection.IncrBy st key (-value)

/-- MemoryConnection.Decr delegates to DecrBy with delta 1. -/
def MemoryConnection.Decr (st : MemoryStore) (key : String) : Int × Option String × MemoryStore :=
  MemoryConnection.DecrBy st key 1

/-- Concrete query for the C1 analysis: non-empty filter plus a limit. -/
def c1Query : Query where
  selectFields := []
  filter := some (Node.cond { field := "x", op := Op.opEq, value := Val.scalar (Scalar.vstr "v") })
  orderBy := []
  limit := some 10
  offset := none
  pageSize := none
  cursor := ""

end GoStore

namespace GoStore

/-- Claim C1: for every Query IR the compiled SQL uses placeholders in strict
left-to-right order with N equal to the number of args, in particular for
queries with both a non-empty filter and a limit. The code violates this: the
WHERE fragment is numbered by a counter private to Compile while LIMIT reuses
the builder's untouched counter, so the filter-plus-limit query compiles to
`SELECT * FROM t WHERE x = $1 LIMIT $1` with a single arg — the placeholder
`$1` is duplicated and the limit's arg is dropped. -/
theorem c1_placeholder_monotonicity_violated :
    (SQLCompiler.Compile "t" c1Query).sql = "SELECT * FROM t WHERE x = $1 LIMIT $1" ∧
    (SQLCompiler.Compile "t" c1Query).args = [Val.scalar (.vstr "v")] ∧
    phScan (SQLCompiler.Compile "t" c1Query).sql = [1, 1] ∧
    ¬ placeholdersOk (SQLCompiler.Compile "t" c1Query) := by
  have h : SQLCompiler.Compile "t" c1Query =
      { sql := "SELECT * FROM t WHERE x = $1 LIMIT $1", args := [Val.scalar (.vstr "v")] } := by
    simp only [SQLCompiler.Compile, c1Query, compileNode, compileCondition]
    decide
  refine ⟨by rw [h], by rw [h], by rw [h]; decide, by rw [h]; decide⟩

/-- Claim C2: insert and update compilation is claimed to emit map-typed
columns in sorted column order, making compilation deterministic. The code
iterates the Go maps directly, so the emitted SQL and args follow the
runtime's unspecified map iteration order: the same two-entry map compiled
under its two possible iteration orders yields different SQL, and under the
order b-before-a the update of spec scenario S2 emits `SET b = $1, a = $2`
rather than the claimed sorted `SET a = $1, b = $2`. -/
theorem c2_map_iteration_order_divergence :
    ([("a", Val.scalar (.vint 1)), ("b", Val.scalar (.vint 2))]).Perm
      [("b", Val.scalar (.vint 2)), ("a", Val.scalar (.vint 1))] ∧
    compileInsert "t" [("a", Val.scalar (.vint 1)), ("b", Val.scalar (.vint 2))] ≠
      compileInsert "t" [("b", Val.scalar (.vint 2)), ("a", Val.scalar (.vint 1))] ∧
    compileInsert "t" [("b", Val.scalar (.vint 2)), ("a", Val.scalar (.vint 1))] =
      .ok { sql := "INSERT INTO t (b, a) VALUES ($1, $2)"
          , args := [Val.scalar (.vint 2), Val.scalar (.vint 1)] } ∧
    compileUpdate "u" [("b", Val.scalar (.vint 2)), ("a", Val.scalar (.vint 1))]
        [{ field := "id", op := .opEq, value := Val.scalar (.vstr "x") }] =
      .ok { sql := "UPDATE u SET b = $1, a = $2 WHERE id = $3"
          , args := [Val.scalar (.vint 2), Val.scalar (.vint 1), Val.scalar (.vstr "x")] } := by
  refine ⟨List.Perm.swap _ _ _, by decide, by decide, by decide⟩

/-- Claim C3 counterexample: applying the paginator to a builder with a
decodable forward cursor yields a builder with no ORDER BY at all and whose
only injected predicate is the plain `created_at < $1` comparison — not the
claimed keyset disjunction with ascending ordering. The full built SQL is
shown: it contains no OR and no ORDER BY clause. -/
theorem c3_keyset_predicate_counterexample :
    (applyToQueryBuilder c3Decode (NewQueryBuilder "t") { pageSize := 2, cursor := "CUR" }).orderBys
      = [] ∧
    (applyToQueryBuilder c3Decode (NewQueryBuilder "t") { pageSize := 2, cursor := "CUR" }).whereConds
      = [{ column := "created_at", operator := "<", value := Val.scalar (.vint 5)
         , connector := "AND" }] ∧
    (applyToQueryBuilder c3Decode (NewQueryBuilder "t") { pageSize := 2, cursor := "CUR" }).orderBys
      ≠ [{ column := "created_at", direction := "ASC" }, { column := "id", direction := "ASC" }] ∧
    (applyToQueryBuilder c3Decode (NewQueryBuilder "t") { pageSize := 2, cursor := "CUR" }).Build
      = ("SELECT * FROM t WHERE created_at < $1 LIMIT $2",
         [Val.scalar (.vint 5), Val.scalar (.vint 2)]) := by
  refine ⟨by decide, by decide, by decide, by decide⟩

/-- Claim C3 as amended: for every forward page with a non-empty cursor that
decodes successfully, the paginator sets LIMIT to the page size and appends
the single predicate `created_at < cursor.LastTimestamp`; it injects no keyset
disjunction and leaves the ORDER BY clauses untouched. -/
theorem c3_forward_page_amended (decode : String → Option Cursor) (qb : QueryBuilder)
    (params : CursorParams) (c : Cursor)
    (hc : params.cursor ≠ "") (hd : decode params.cursor = some c) :
    applyToQueryBuilder decode qb params =
      (qb.Limit params.pageSize).Where "created_at" "<" (Val.scalar (.vint c.lastTimestamp)) ∧
    (applyToQueryBuilder decode qb params).orderBys = qb.orderBys := by
  have h : applyToQueryBuilder decode qb params =
      (qb.Limit params.pageSize).Where "created_at" "<" (Val.scalar (.vint c.lastTimestamp)) := by
    unfold applyToQueryBuilder
    rw [if_pos hc, hd]
  refine ⟨h, ?_⟩
  rw [h]
  simp [QueryBuilder.Where, QueryBuilder.Limit]

/-- Witness for c3_forward_page_amended at the concrete decode function,
builder and cursor of the counterexample. -/
theorem c3_forward_page_amended_witness :
    applyToQueryBuilder c3Decode (NewQueryBuilder "t") { pageSize := 2, cursor := "CUR" } =
      ((NewQueryBuilder "t").Limit 2).Where "created_at" "<" (Val.scalar (.vint 5)) ∧
    (applyToQueryBuilder c3Decode (NewQueryBuilder "t")
        { pageSize := 2, cursor := "CUR" }).orderBys = (NewQueryBuilder "t").orderBys :=
  c3_forward_page_amended c3Decode (NewQueryBuilder "t") { pageSize := 2, cursor := "CUR" }
    { lastID := "i2", lastTimestamp := 5, lastSort := "", pageSize := 2
    , createdAt := 0, version := 1 }
    (by decide) (by decide)

/-- Claim C6 counterexample: in the mutation WHERE-clause compiler an In
condition with an empty list is silently dropped — the compiled clause is the
empty string with no args, not the constant-false predicate. -/
theorem c6_mutation_in_empty_counterexample :
    compileConditions [{ field := "k", op := .opIn, value := Val.vlist [] }] 1 = ("", []) ∧
    ("" : String) ≠ "1=0" := by
  exact ⟨by decide, by decide⟩

/-- Claim C6 as amended: an In condition with an empty value list compiles to
the constant-false predicate 1=0 with no args in the query filter compiler,
while the mutation WHERE-clause compiler silently omits the condition
entirely (empty fragment, no args); neither is an error. -/
theorem c6_in_empty_amended (f : String) (i : Nat) :
    compileCondition { field := f, op := .opIn, value := Val.vlist [] } i = ("1=0", [], i) ∧
    compileConditions [{ field := f, op := .opIn, value := Val.vlist [] }] i = ("", []) := by
  constructor
  · rfl
  · simp [compileConditions, compileCondsAux, mutCondStep]
    rfl

/-- Claim C7 counterexample: the mutation WHERE-clause compiler has no Between
arm, so between(f, 1, 2) falls into the default equality arm and compiles to
`f = $1` with one arg (the pair), not to a BETWEEN fragment with two
placeholders. -/
theorem c7_mutation_between_counterexample :
    compileConditions [{ field := "f", op := .opBetween
                       , value := Val.vpair (.vint 1) (.vint 2) }] 1 =
      ("f = $1", [Val.vpair (.vint 1) (.vint 2)]) ∧
    (compileConditions [{ field := "f", op := .opBetween
                        , value := Val.vpair (.vint 1) (.vint 2) }] 1).2.length ≠ 2 ∧
    ("f = $1" : String) ≠ "f BETWEEN $1 AND $2" := by
  exact ⟨by decide, by decide, by decide⟩

/-- Claim C7 as amended: in the query filter compiler between(f, a, b) emits
`f BETWEEN $N AND $N+1` with exactly the two args (a, b) in order; in the
mutation WHERE-clause compiler the Between operator lands in the default
equality arm, emitting `f = $N` with the (a, b) pair as a single arg. -/
theorem c7_between_amended (f : String) (a b : Scalar) (i : Nat) :
    compileCondition { field := f, op := .opBetween, value := Val.vpair a b } i =
      (f ++ " BETWEEN $" ++ toString i ++ " AND $" ++ toString (i + 1),
        [Val.scalar a, Val.scalar b], i + 2) ∧
    compileConditions [{ field := f, op := .opBetween, value := Val.vpair a b }] i =
      (f ++ " = $" ++ toString i, [Val.vpair a b]) := by
  constructor
  · rfl
  · simp [compileConditions, compileCondsAux, mutCondStep]
    rfl

/-- Claim C4: the presigned URL carries a token signed over id-colon-expiry,
and serving that URL is accepted before the expiry instant. The code signs
the bare file id but validates against the full request path `/files/id`, so
a genuine presigned URL is rejected even well before expiry: with the
injective digest stand-in, the URL generated at time 40 with a 60-second
expiry is refused at time 50, while the same token would validate against the
bare id. The final conjunct shows the mismatch is structural: the signed data
and the verified data differ for every id and timestamp. -/
theorem c4_presign_validation_divergence :
    serveValidates c4Hmac "s" 50 "abc" (generateToken c4Hmac "s" "abc" 40 60) = false ∧
    validateToken c4Hmac "s" 50 "abc" (generateToken c4Hmac "s" "abc" 40 60) = true ∧
    getPresignedURL c4Hmac "http://h" "s" true 40 "abc" 60 =
      .ok "http://h/files/abc?token=100.s|abc:100" ∧
    (∀ id ts : String, "/files/" ++ id ++ ":" ++ ts ≠ id ++ ":" ++ ts) := by
  refine ⟨by decide, by decide, by decide, ?_⟩
  intro id ts h
  have hlen := congrArg String.length h
  simp [String.length_append] at hlen
  exact (by decide : "/files/".length ≠ 0) hlen

set_option maxRecDepth 4000 in
/-- Claim C5: the FileID is the 16-hex-character prefix of sha256 over the
content hash, a colon, and the name, computed identically by the in-memory
and streaming implementations. The streaming implementation matches the
formula for every digest function, but GenerateFileID hashes the hex of the
raw content instead of the content hash, so the two implementations disagree
on the content hello with name x.txt under the injective digest stand-in. -/
theorem c5_fileid_divergence :
    (∀ (h : List Nat → String) (content : List Nat) (name : String),
        generateFileIDFromStream h content name = specFileID h content name) ∧
    generateFileID c5Hash [104, 101, 108, 108, 111] "x.txt" ≠
      generateFileIDFromStream c5Hash [104, 101, 108, 108, 111] "x.txt" ∧
    generateFileID c5Hash [104, 101, 108, 108, 111] "x.txt" ≠
      specFileID c5Hash [104, 101, 108, 108, 111] "x.txt" := by
  refine ⟨fun h c n => rfl, by decide, by decide⟩

/-- Claim C8: when the callback passed to WithTx (or WithTxOptions without a
retry policy) returns an error and no transaction was already on the context,
the newly begun transaction is rolled back — the driver sees exactly BEGIN
then ROLLBACK and never COMMIT — and the callback's error is surfaced to the
caller as the cause of the returned transaction error, recovered verbatim by
Unwrap. -/
theorem c8_withtx_rollback_surfaces_error (e : GoError) (commitErr : Option GoError) :
    withTx false none (some e) commitErr =
      (some (.txError "rollback" e), [TxAction.beginTx, TxAction.rollbackTx]) ∧
    errUnwrap (GoError.txError "rollback" e) = some e ∧
    TxAction.commitTx ∉ [TxAction.beginTx, TxAction.rollbackTx] ∧
    TxAction.rollbackTx ∈ [TxAction.beginTx, TxAction.rollbackTx] := by
  refine ⟨rfl, rfl, by decide, by decide⟩

/-- Claim C9: Where (and WhereEq) on the query, update and delete builders
with a nil value or an empty-string value returns the builder unchanged, so
the condition is silently absent from the generated SQL and args. -/
theorem c9_where_nil_empty_omitted (qb : QueryBuilder) (ub : UpdateBuilder)
    (db : DeleteBuilder) (column operator : String) :
    (qb.Where column operator (Val.scalar .vnil) = qb ∧
      qb.Where column operator (Val.scalar (.vstr "")) = qb ∧
      qb.WhereEq column (Val.scalar .vnil) = qb ∧
      qb.WhereEq column (Val.scalar (.vstr "")) = qb) ∧
    (ub.Where column operator (Val.scalar .vnil) = ub ∧
      ub.Where column operator (Val.scalar (.vstr "")) = ub ∧
      ub.WhereEq column (Val.scalar .vnil) = ub ∧
      ub.WhereEq column (Val.scalar (.vstr "")) = ub) ∧
    (db.Where column operator (Val.scalar .vnil) = db ∧
      db.Where column operator (Val.scalar (.vstr "")) = db ∧
      db.WhereEq column (Val.scalar .vnil) = db ∧
      db.WhereEq column (Val.scalar (.vstr "")) = db) := by
  refine ⟨⟨rfl, rfl, rfl, rfl⟩, ⟨rfl, rfl, rfl, rfl⟩, ⟨rfl, rfl, rfl, rfl⟩⟩

/-- Claim C10: on the in-memory KV adapter every Incr, IncrBy, Decr and DecrBy
call returns an error for every key and delta and leaves the stored data (and
statistics) unchanged. -/
theorem c10_memory_atomics_error_and_noop (st : MemoryStore) (key : String) (v : Int) :
    MemoryConnection.IncrBy st key v =
      (v, some "atomic operations not fully implemented in memory adapter", st) ∧
    MemoryConnection.Incr st key =
      (1, some "atomic operations not fully implemented in memory adapter", st) ∧
    MemoryConnection.DecrBy st key v =
      (-v, some "atomic operations not fully implemented in memory adapter", st) ∧
    MemoryConnection.Decr st key =
      (-1, some "atomic operations not fully implemented in memory adapter", st) := by
  refine ⟨rfl, rfl, rfl, rfl⟩

end GoStore
